import Mathlib

/-!
# Verification of the zmcp Python example script

Shallow embedding of `src/examples/python_colab_example.py`: the `run_zmcp`
subprocess wrapper, the JSON decoding of its standard output, and the caller
patterns (field reads, attachment filtering, search summary, batch loop).

The external process (`subprocess.run`) is modelled as a function from the
argument list to a captured result (exit code, stdout, stderr): `run_zmcp`
is parameterised over it.  Python's `json.loads` is modelled by an executable
recursive-descent JSON parser over the decoded value type `Json` below
(numbers are kept as a decimal mantissa/exponent pair; float formatting is
not needed by any caller here).
-/

/-- A JSON value as decoded by `json.loads`.  Numbers carry the literal's
mantissa and a power-of-ten exponent (`12.5` is `num 125 (-1)`). -/
inductive Json where
  | null : Json
  | bool (b : Bool) : Json
  | num (mantissa : Int) (exp10 : Int) : Json
  | str (s : String) : Json
  | arr (elems : List Json) : Json
  | obj (fields : List (String × Json)) : Json

/-- Last binding of a key in an association list: Python dict literals keep
the value of the *last* duplicate key, so lookup mirrors that. -/
def lookupLast (fields : List (String × Json)) (k : String) : Option Json :=
  match fields with
  | [] => none
  | (k', v) :: rest =>
    match lookupLast rest k with
    | some w => some w
    | none => if k' = k then some v else none

/-! ## JSON parser (model of `json.loads`) -/

/-- JSON whitespace characters (space, tab, newline, carriage return). -/
def isJsonWs (c : Char) : Bool :=
  c = ' ' || c = '\t' || c = '\n' || c = '\r'

/-- Skip leading JSON whitespace. -/
def skipWs (input : List Char) : List Char :=
  match input with
  | [] => []
  | c :: rest => if isJsonWs c then skipWs rest else input

/-- Digit test for JSON numbers. -/
def isDigitCh (c : Char) : Bool := '0' ≤ c && c ≤ '9'

/-- Split off the leading run of decimal digits. -/
def digitSpan (input : List Char) : List Char × List Char :=
  match input with
  | [] => ([], [])
  | c :: rest =>
    match isDigitCh c, digitSpan rest with
    | true, (ds, r) => (c :: ds, r)
    | false, _ => ([], input)

/-- Numeric value of a digit run, most significant first. -/
def digitsVal (acc : Nat) : List Char → Nat
  | [] => acc
  | c :: rest => digitsVal (10 * acc + (c.toNat - 48)) rest

/-- Hexadecimal digit value, for `\uXXXX` escapes (code points 0–9, a–f,
A–F). -/
def hexVal (c : Char) : Option Nat :=
  let n := c.toNat
  if 48 ≤ n && n ≤ 57 then some (n - 48)
  else if 97 ≤ n && n ≤ 102 then some (n - 87)
  else if 65 ≤ n && n ≤ 70 then some (n - 55)
  else none

/-- Parse the body of a JSON string literal (the opening quote already
consumed), returning the content and the input after the closing quote. -/
def parseStringBody (fuel : Nat) (input : List Char) :
    Except String (List Char × List Char) :=
  match fuel with
  | 0 => .error "Unterminated string"
  | fuel + 1 =>
    match input with
    | [] => .error "Unterminated string"
    | '"' :: rest => .ok ([], rest)
    | '\\' :: esc :: rest =>
      let simple : Option Char :=
        if esc = '"' then some '"'
        else if esc = '\\' then some '\\'
        else if esc = '/' then some '/'
        else if esc = 'b' then some (Char.ofNat 8)
        else if esc = 'f' then some (Char.ofNat 12)
        else if esc = 'n' then some '\n'
        else if esc = 'r' then some '\r'
        else if esc = 't' then some '\t'
        else none
      match simple with
      | some c =>
        match parseStringBody fuel rest with
        | .ok (cs, r) => .ok (c :: cs, r)
        | .error e => .error e
      | none =>
        if esc = 'u' then
          match rest with
          | h1 :: h2 :: h3 :: h4 :: rest' =>
            match hexVal h1, hexVal h2, hexVal h3, hexVal h4 with
            | some a, some b, some c, some d =>
              let code := ((a * 16 + b) * 16 + c) * 16 + d
              match parseStringBody fuel rest' with
              | .ok (cs, r) => .ok (Char.ofNat code :: cs, r)
              | .error e => .error e
            | _, _, _, _ => .error "Invalid \\u escape"
          | _ => .error "Invalid \\u escape"
        else .error "Invalid escape"
    | c :: rest =>
      match parseStringBody fuel rest with
      | .ok (cs, r) => .ok (c :: cs, r)
      | .error e => .error e

/-- Parse a JSON number starting at the input head (which is `-` or a
digit), returning its mantissa, power-of-ten exponent and the rest. -/
def parseNumber (input : List Char) :
    Except String (Int × Int × List Char) :=
  let (neg, afterSign) :=
    match input with
    | '-' :: rest => (true, rest)
    | _ => (false, input)
  let (intDs, afterInt) := digitSpan afterSign
  if intDs.isEmpty then .error "Expecting value"
  else if intDs.length > 1 && intDs.headI = '0' then .error "Leading zero"
  else
    let (fracDs, afterFrac) :=
      match afterInt with
      | '.' :: rest =>
        let (ds, r) := digitSpan rest
        (ds, r)
      | _ => ([], afterInt)
    if (match afterInt with | '.' :: _ => fracDs.isEmpty | _ => false) then
      .error "Expecting digits after decimal point"
    else
      let mantissa : Int := (digitsVal 0 (intDs ++ fracDs) : Int)
      let mantissa := if neg then -mantissa else mantissa
      let baseExp : Int := -(fracDs.length : Int)
      match afterFrac with
      | e :: rest =>
        if e = 'e' || e = 'E' then
          let (esign, afterESign) :=
            match rest with
            | '+' :: r => ((1 : Int), r)
            | '-' :: r => ((-1 : Int), r)
            | _ => ((1 : Int), rest)
          let (expDs, afterExp) := digitSpan afterESign
          if expDs.isEmpty then .error "Expecting exponent digits"
          else .ok (mantissa, baseExp + esign * (digitsVal 0 expDs : Int), afterExp)
        else .ok (mantissa, baseExp, afterFrac)
      | [] => .ok (mantissa, baseExp, afterFrac)

mutual

/-- Parse one JSON value (leading whitespace allowed), fuel-bounded. -/
def parseValue (fuel : Nat) (input : List Char) :
    Except String (Json × List Char) :=
  match fuel with
  | 0 => .error "Out of fuel"
  | fuel + 1 =>
    match skipWs input with
    | [] => .error "Expecting value"
    | c :: rest =>
      if c = 'n' then
        match rest with
        | 'u' :: 'l' :: 'l' :: r => .ok (.null, r)
        | _ => .error "Expecting value"
      else if c = 't' then
        match rest with
        | 'r' :: 'u' :: 'e' :: r => .ok (.bool true, r)
        | _ => .error "Expecting value"
      else if c = 'f' then
        match rest with
        | 'a' :: 'l' :: 's' :: 'e' :: r => .ok (.bool false, r)
        | _ => .error "Expecting value"
      else if c = '"' then
        match parseStringBody (rest.length + 1) rest with
        | .ok (cs, r) => .ok (.str (String.mk cs), r)
        | .error e => .error e
      else if c = '[' then
        parseArrayItems fuel rest
      else if c = '\x7b' then
        parseObjectItems fuel rest
      else if c = '-' || isDigitCh c then
        match parseNumber (c :: rest) with
        | .ok (m, e, r) => .ok (.num m e, r)
        | .error e => .error e
      else .error "Expecting value"

/-- Parse array elements after `[`, including the closing `]`. -/
def parseArrayItems (fuel : Nat) (input : List Char) :
    Except String (Json × List Char) :=
  match fuel with
  | 0 => .error "Out of fuel"
  | fuel + 1 =>
    match skipWs input with
    | ']' :: r => .ok (.arr [], r)
    | other =>
      match parseArrayRest fuel other [] with
      | .ok (xs, r) => .ok (.arr xs, r)
      | .error e => .error e

/-- Parse `value (, value)* ]`, accumulating elements in order. -/
def parseArrayRest (fuel : Nat) (input : List Char) (acc : List Json) :
    Except String (List Json × List Char) :=
  match fuel with
  | 0 => .error "Out of fuel"
  | fuel + 1 =>
    match parseValue fuel input with
    | .error e => .error e
    | .ok (v, rest) =>
      match skipWs rest with
      | ',' :: r => parseArrayRest fuel r (acc ++ [v])
      | ']' :: r => .ok (acc ++ [v], r)
      | _ => .error "Expecting comma or close bracket"

/-- Parse object members after an opening brace, including the close. -/
def parseObjectItems (fuel : Nat) (input : List Char) :
    Except String (Json × List Char) :=
  match fuel with
  | 0 => .error "Out of fuel"
  | fuel + 1 =>
    match skipWs input with
    | '\x7d' :: r => .ok (.obj [], r)
    | other =>
      match parseObjectRest fuel other [] with
      | .ok (fs, r) => .ok (.obj fs, r)
      | .error e => .error e

/-- Parse `"key": value (, "key": value)*` then the closing brace. -/
def parseObjectRest (fuel : Nat) (input : List Char)
    (acc : List (String × Json)) :
    Except String (List (String × Json) × List Char) :=
  match fuel with
  | 0 => .error "Out of fuel"
  | fuel + 1 =>
    match skipWs input with
    | '"' :: rest =>
      match parseStringBody (rest.length + 1) rest with
      | .error e => .error e
      | .ok (key, afterKey) =>
        match skipWs afterKey with
        | ':' :: afterColon =>
          match parseValue fuel afterColon with
          | .error e => .error e
          | .ok (v, rest') =>
            match skipWs rest' with
            | ',' :: r => parseObjectRest fuel r (acc ++ [(String.mk key, v)])
            | '\x7d' :: r => .ok (acc ++ [(String.mk key, v)], r)
            | _ => .error "Expecting comma or close brace"
        | _ => .error "Expecting colon"
    | _ => .error "Expecting property name"

end

/-- Model of Python's `json.loads`: parse the whole string as one JSON
document, rejecting trailing non-whitespace. -/
def json_loads (s : String) : Except String Json :=
  match parseValue (2 * s.length + 2) s.data with
  | .error e => .error e
  | .ok (v, rest) =>
    if (skipWs rest).isEmpty then .ok v else .error "Extra data"

/-! ## The subprocess wrapper `run_zmcp` (lines 13–28) -/

/-- Line 13: `CLI_PATH = "zmcp"`. -/
def CLI_PATH : String := "zmcp"

/-- Captured result of `subprocess.run(cmd, capture_output=True, text=True)`:
exit status and the two text streams. -/
structure ProcResult where
  returncode : Int
  stdout : String
  stderr : String

/-- The child-process argument list built at lines 17–19:
`cmd = [CLI_PATH, command] + list(args)`, then `cmd.append('--json')`
when `json_output` is set. -/
def zmcp_cmd (command : String) (args : List String) (json_output : Bool) :
    List String :=
  let cmd := [CLI_PATH, command] ++ args
  if json_output then cmd ++ ["--json"] else cmd

/-- What `run_zmcp` hands back: a decoded JSON value when `--json` was
requested, otherwise the raw stdout text. -/
inductive RunValue where
  | jsonVal (j : Json) : RunValue
  | text (s : String) : RunValue

/-- Lines 15–28.  `subprocess_run` models `subprocess.run` as a map from
the argument list to the captured process result.  A raised `Exception`
becomes `.error`; its message is the f-string of line 24. -/
def run_zmcp (subprocess_run : List String → ProcResult)
    (command : String) (args : List String)
    (json_output : Bool := true) : Except String RunValue :=
  let result := subprocess_run (zmcp_cmd command args json_output)
  if result.returncode ≠ 0 then
    .error ("Command failed: " ++ result.stderr)
  else if json_output then
    match json_loads result.stdout with
    | .ok v => .ok (.jsonVal v)
    | .error e => .error e
  else
    .ok (.text result.stdout)

/-! ## Python operations used by the callers -/

/-- Python subscript `value[key]` with a string key: a key lookup on a
dict (raising `KeyError` when absent), a `TypeError` on any other value. -/
def pySubscript (j : Json) (k : String) : Except String Json :=
  match j with
  | .obj fields =>
    match lookupLast fields k with
    | some v => .ok v
    | none => .error ("KeyError: " ++ k)
  | _ => .error ("TypeError: value is not subscriptable by key " ++ k)

/-- Subscripting the value returned by `run_zmcp`: raw text is a Python
`str`, which rejects string indices. -/
def RunValue.subscript : RunValue → String → Except String Json
  | .jsonVal j, k => pySubscript j k
  | .text _, k => .error ("TypeError: string indices must be integers, got " ++ k)

/-- Python `dict.get(key, default)`: never raises on a dict; raises
`AttributeError` on non-dict values (which have no `get` method). -/
def pyDictGet (j : Json) (k : String) (dflt : Json) : Except String Json :=
  match j with
  | .obj fields =>
    match lookupLast fields k with
    | some v => .ok v
    | none => .ok dflt
  | _ => .error "AttributeError: value has no attribute get"

/-- Does `sub` begin `hay`? -/
def beginsWith : List Char → List Char → Bool
  | [], _ => true
  | _ :: _, [] => false
  | a :: as_, b :: bs => a = b && beginsWith as_ bs

/-- Does `sub` occur contiguously inside `hay`? -/
def occursIn (sub hay : List Char) : Bool :=
  match hay with
  | [] => sub.isEmpty
  | _ :: t => beginsWith sub hay || occursIn sub t

/-- Python `==` between a decoded value and a string literal: string
equality when the value is a `str`, `False` for every other type. -/
def Json.eqStr : Json → String → Bool
  | .str s, t => s == t
  | _, _ => false

/-- Python `sub in value` with a string `sub`: substring test on a `str`,
membership on a list, key membership on a dict, `TypeError` otherwise. -/
def pyInOp (sub : String) (j : Json) : Except String Bool :=
  match j with
  | .str s => .ok (occursIn sub.data s.data)
  | .arr xs => .ok (xs.any fun x => x.eqStr sub)
  | .obj fs => .ok (fs.any fun kv => kv.1 == sub)
  | _ => .error "TypeError: argument of type is not iterable"

/-- Python slice `value[:n]`: prefix of a `str` or list, `TypeError`
on anything else. -/
def pySliceTake (j : Json) (n : Nat) : Except String Json :=
  match j with
  | .str s => .ok (.str (String.mk (s.data.take n)))
  | .arr xs => .ok (.arr (xs.take n))
  | _ => .error "TypeError: value is not subscriptable"

mutual

/-- Python `str()` of a decoded JSON value, as used by the f-strings:
identity on `str`, `repr` on everything else.  Float formatting (a
nonzero exponent) is approximated with `e` notation. -/
def pyStr : Json → String
  | .str s => s
  | j => pyRepr j

/-- Python `repr()` of a decoded JSON value. -/
def pyRepr : Json → String
  | .null => "None"
  | .bool true => "True"
  | .bool false => "False"
  | .num m e => if e = 0 then toString m else toString m ++ "e" ++ toString e
  | .str s => "\x27" ++ s ++ "\x27"
  | .arr xs => "[" ++ pyReprJoin xs ++ "]"
  | .obj fs => "\x7b" ++ pyReprFields fs ++ "\x7d"

/-- Comma-joined `repr`s of list elements. -/
def pyReprJoin : List Json → String
  | [] => ""
  | [x] => pyRepr x
  | x :: y :: rest => pyRepr x ++ ", " ++ pyReprJoin (y :: rest)

/-- Comma-joined `repr`s of dict entries. -/
def pyReprFields : List (String × Json) → String
  | [] => ""
  | [(k, v)] => "\x27" ++ k ++ "\x27: " ++ pyRepr v
  | (k, v) :: kv :: rest =>
    "\x27" ++ k ++ "\x27: " ++ pyRepr v ++ ", " ++ pyReprFields (kv :: rest)

end

/-! ## Caller patterns -/

/-- The Example 1 prints (lines 39–44): six direct subscript reads on the
decoded result; any missing key raises.  Returns the read values in
source order. -/
def example1_reads (data : RunValue) : Except String (List Json) :=
  match data.subscript "pdbId" with
  | .error e => .error e
  | .ok p =>
    match data.subscript "title" with
    | .error e => .error e
    | .ok t =>
      match data.subscript "authors" with
      | .error e => .error e
      | .ok a =>
        match data.subscript "method" with
        | .error e => .error e
        | .ok m =>
          match data.subscript "doi" with
          | .error e => .error e
          | .ok d =>
            match data.subscript "fileSize" with
            | .error e => .error e
            | .ok f => .ok [p, t, a, m, d, f]

/-- Line 85: `details['item'].get('DOI', 'N/A')` — the one defensive read
of Example 4, an optional lookup with an explicit placeholder default. -/
def example4_doi_read (details : RunValue) : Except String Json :=
  match details.subscript "item" with
  | .error e => .error e
  | .ok item => pyDictGet item "DOI" (.str "N/A")

/-- Line 88: `[c for c in details['children'] if c['itemType'] == 'attachment']`,
over the already-extracted children list.  The subscript inside the
comprehension raises on a child without the key, aborting the whole
comprehension, exactly as in Python. -/
def attachments_of (children : List Json) : Except String (List Json) :=
  match children with
  | [] => .ok []
  | c :: cs =>
    match pySubscript c "itemType" with
    | .error e => .error e
    | .ok t =>
      match attachments_of cs with
      | .error e => .error e
      | .ok rest => .ok (if t.eqStr "attachment" then c :: rest else rest)

/-- Line 92: `[a for a in attachments if 'pdb' in a.get('contentType', '')]`:
a defensive `.get` with default `''`, then the substring test. -/
def pdb_attachments_of (atts : List Json) : Except String (List Json) :=
  match atts with
  | [] => .ok []
  | a :: rest =>
    match pyDictGet a "contentType" (.str "") with
    | .error e => .error e
    | .ok ct =>
      match pyInOp "pdb" ct with
      | .error e => .error e
      | .ok b =>
        match pdb_attachments_of rest with
        | .error e => .error e
        | .ok rs => .ok (if b then a :: rs else rs)

/-- Lines 72–73 loop body over the enumerated items: each item is rendered
as the f-string `f"  \x7bi\x7d. \x7bitem['title']\x7d (\x7bitem['key']\x7d)"`;
`i` counts from the given start.  A missing `title` or `key` raises at the
item where Python would raise. -/
def summary_lines (i : Nat) (items : List Json) : Except String (List String) :=
  match items with
  | [] => .ok []
  | item :: rest =>
    match pySubscript item "title" with
    | .error e => .error e
    | .ok t =>
      match pySubscript item "key" with
      | .error e => .error e
      | .ok k =>
        match summary_lines (i + 1) rest with
        | .error e => .error e
        | .ok ls =>
          .ok (("  " ++ toString i ++ ". " ++ pyStr t ++ " (" ++ pyStr k ++ ")") :: ls)

/-- Lines 71–73: the Example 3 summary prints only `items[:5]`, enumerated
from 1. -/
def search_summary (items : List Json) : Except String (List String) :=
  summary_lines 1 (items.take 5)

/-- One record appended by the Example 5 batch loop (lines 114–118):
`\x7b'id': pdb_id, 'file': output_file, 'metadata': data\x7d`. -/
structure StructureRec where
  id : String
  file : String
  metadata : RunValue

/-- The body of one Example 5 iteration (lines 109–118): fetch, then the
print of line 112 (which subscripts `pdbId` and `title` and slices the
title), then the record.  Any of these raising makes the iteration fail. -/
def batch_fetch_step (subprocess_run : List String → ProcResult)
    (pdb_id : String) : Except String StructureRec :=
  let output_file := pdb_id ++ ".pdb"
  match run_zmcp subprocess_run "fetch-pdb" [pdb_id, "--output", output_file] with
  | .error e => .error e
  | .ok data =>
    match data.subscript "pdbId" with
    | .error e => .error e
    | .ok _ =>
      match data.subscript "title" with
      | .error e => .error e
      | .ok t =>
        match pySliceTake t 50 with
        | .error e => .error e
        | .ok _ => .ok ⟨pdb_id, output_file, data⟩

/-- The Example 5 batch loop (lines 107–121): iterate the identifiers in
order; a successful iteration appends its record, a failing one is caught
(`except` at line 120) and the loop continues. -/
def batch_fetch (subprocess_run : List String → ProcResult)
    (pdb_ids : List String) : List StructureRec :=
  pdb_ids.foldl
    (fun structures pdb_id =>
      match batch_fetch_step subprocess_run pdb_id with
      | .ok r => structures ++ [r]
      | .error _ => structures)
    []

/-! ## Mock external tools for concrete instantiations -/

/-- Stdout of a mock `search` tool:
`[\x7b"title":"Hemoglobin structure","key":"ABC123"\x7d]`. -/
def hemoglobinStdout : String :=
  "[\x7b\"title\":\"Hemoglobin structure\",\"key\":\"ABC123\"\x7d]"

/-- Mock tool emitting `hemoglobinStdout` with exit code 0. -/
def hemoglobinTool : List String → ProcResult :=
  fun _ => ⟨0, hemoglobinStdout, ""⟩

/-- Mock tool that always fails, with diagnostic text on stderr. -/
def failingTool : List String → ProcResult :=
  fun _ => ⟨1, "", "zotero library unreachable"⟩

/-- Mock tool succeeding with raw text output that ends in blank lines. -/
def rawTextTool : List String → ProcResult :=
  fun _ => ⟨0, "4HHB resolved\n\n", ""⟩

/-- Mock tool succeeding but emitting something that is not JSON. -/
def badJsonTool : List String → ProcResult :=
  fun _ => ⟨0, "not json", ""⟩

/-! ## C1–C4, C6, C10: the `run_zmcp` contract -/

/-- C1: for every invocation where the child exits with status zero and
JSON output was requested, the returned value is exactly the JSON decoding
of the captured standard output. -/
theorem run_zmcp_json_decodes_stdout (sp : List String → ProcResult)
    (command : String) (args : List String)
    (h0 : (sp (zmcp_cmd command args true)).returncode = 0) :
    run_zmcp sp command args true =
      (json_loads (sp (zmcp_cmd command args true)).stdout).map RunValue.jsonVal := by
  cases hj : json_loads (sp (zmcp_cmd command args true)).stdout <;>
    simp [run_zmcp, h0, hj, Except.map]

/-- C1 witness: the spec's example — command `search`, argument
`"hemoglobin"`, a mock tool emitting a one-element array; the result is
that array, and its first element's `key` is `"ABC123"`. -/
theorem run_zmcp_json_decodes_stdout_witness :
    (hemoglobinTool (zmcp_cmd "search" ["hemoglobin"] true)).returncode = 0 ∧
    run_zmcp hemoglobinTool "search" ["hemoglobin"] true =
      (json_loads (hemoglobinTool (zmcp_cmd "search" ["hemoglobin"] true)).stdout).map
        RunValue.jsonVal ∧
    json_loads hemoglobinStdout =
      .ok (.arr [.obj [("title", .str "Hemoglobin structure"), ("key", .str "ABC123")]]) ∧
    pySubscript (.obj [("title", .str "Hemoglobin structure"), ("key", .str "ABC123")])
      "key" = .ok (.str "ABC123") :=
  ⟨rfl, run_zmcp_json_decodes_stdout hemoglobinTool "search" ["hemoglobin"] rfl, rfl, rfl⟩

/-- C2: for every invocation where the child exits non-zero, `run_zmcp`
raises (returns no result), and the message embeds the captured stderr
verbatim (as a suffix of the message). -/
theorem run_zmcp_nonzero_exit_raises (sp : List String → ProcResult)
    (command : String) (args : List String) (json_output : Bool)
    (h : (sp (zmcp_cmd command args json_output)).returncode ≠ 0) :
    run_zmcp sp command args json_output =
      .error ("Command failed: " ++ (sp (zmcp_cmd command args json_output)).stderr) ∧
    ∃ p, "Command failed: " ++ (sp (zmcp_cmd command args json_output)).stderr =
      p ++ (sp (zmcp_cmd command args json_output)).stderr := by
  refine ⟨?_, "Command failed: ", rfl⟩
  simp [run_zmcp, h]

/-- C2 witness: a tool exiting 1 with stderr text; the call errors and the
message ends with that text. -/
theorem run_zmcp_nonzero_exit_raises_witness :
    (failingTool (zmcp_cmd "save-pdb" ["1MBN"] true)).returncode ≠ 0 ∧
    run_zmcp failingTool "save-pdb" ["1MBN"] true =
      .error ("Command failed: " ++
        (failingTool (zmcp_cmd "save-pdb" ["1MBN"] true)).stderr) :=
  ⟨by decide,
   (run_zmcp_nonzero_exit_raises failingTool "save-pdb" ["1MBN"] true (by decide)).1⟩

/-- C3: for every invocation where the child exits zero and JSON output
was not requested, the result is exactly the captured stdout string,
unmodified. -/
theorem run_zmcp_raw_stdout_unmodified (sp : List String → ProcResult)
    (command : String) (args : List String)
    (h0 : (sp (zmcp_cmd command args false)).returncode = 0) :
    run_zmcp sp command args false =
      .ok (.text (sp (zmcp_cmd command args false)).stdout) := by
  simp [run_zmcp, h0]

/-- C3 witness: a raw-text tool whose stdout ends in `"\n\n"`; the result
keeps the trailing newlines. -/
theorem run_zmcp_raw_stdout_unmodified_witness :
    (rawTextTool (zmcp_cmd "fetch-pdb" ["4HHB"] false)).returncode = 0 ∧
    run_zmcp rawTextTool "fetch-pdb" ["4HHB"] false =
      .ok (.text "4HHB resolved\n\n") :=
  ⟨rfl, run_zmcp_raw_stdout_unmodified rawTextTool "fetch-pdb" ["4HHB"] rfl⟩

/-- C4: the child argument list is the CLI path, the command, then the
positional arguments in order, with `--json` appended as the trailing
element exactly when JSON output is requested. -/
theorem zmcp_cmd_shape (command : String) (args : List String) (json_output : Bool) :
    zmcp_cmd command args json_output =
      [CLI_PATH, command] ++ args ++ (if json_output then ["--json"] else []) ∧
    (zmcp_cmd command args true).getLast? = some "--json" ∧
    zmcp_cmd command args false = [CLI_PATH, command] ++ args := by
  refine ⟨?_, ?_, ?_⟩
  · cases json_output <;> simp [zmcp_cmd]
  · show (([CLI_PATH, command] ++ args) ++ ["--json"]).getLast? = some "--json"
    exact List.getLast?_concat _
  · rfl

/-- C6: with JSON requested and a zero exit status, a stdout that fails to
decode makes the whole call fail with the decoder's error — no retry, no
repair, no partial result. -/
theorem run_zmcp_decode_failure_fatal (sp : List String → ProcResult)
    (command : String) (args : List String) (e : String)
    (h0 : (sp (zmcp_cmd command args true)).returncode = 0)
    (hj : json_loads (sp (zmcp_cmd command args true)).stdout = .error e) :
    run_zmcp sp command args true = .error e := by
  simp [run_zmcp, h0, hj]

/-- C6 witness: a tool exiting 0 with stdout `"not json"`; the call fails
with the decoding error. -/
theorem run_zmcp_decode_failure_fatal_witness :
    (badJsonTool (zmcp_cmd "get" ["KEY1"] true)).returncode = 0 ∧
    json_loads (badJsonTool (zmcp_cmd "get" ["KEY1"] true)).stdout =
      .error "Expecting value" ∧
    run_zmcp badJsonTool "get" ["KEY1"] true = .error "Expecting value" :=
  ⟨rfl, rfl, run_zmcp_decode_failure_fatal badJsonTool "get" ["KEY1"] "Expecting value" rfl rfl⟩

/-- C10: a call that omits `json_output` uses the default `True`: the
argument list ends in `--json` and, on success, the stdout is decoded as
JSON rather than returned as raw text. -/
theorem run_zmcp_default_requests_json (sp : List String → ProcResult)
    (command : String) (args : List String)
    (h0 : (sp (zmcp_cmd command args true)).returncode = 0) :
    run_zmcp sp command args = run_zmcp sp command args true ∧
    (zmcp_cmd command args true).getLast? = some "--json" ∧
    run_zmcp sp command args =
      (json_loads (sp (zmcp_cmd command args true)).stdout).map RunValue.jsonVal := by
  refine ⟨rfl, ?_, ?_⟩
  · show (([CLI_PATH, command] ++ args) ++ ["--json"]).getLast? = some "--json"
    exact List.getLast?_concat _
  · cases hj : json_loads (sp (zmcp_cmd command args true)).stdout <;>
      simp [run_zmcp, h0, hj, Except.map]

/-- C10 witness: the hemoglobin mock called with `json_output` omitted
returns the decoded array, not raw text. -/
theorem run_zmcp_default_requests_json_witness :
    (hemoglobinTool (zmcp_cmd "search" ["protein"] true)).returncode = 0 ∧
    run_zmcp hemoglobinTool "search" ["protein"] =
      .ok (.jsonVal (.arr [.obj [("title", .str "Hemoglobin structure"),
        ("key", .str "ABC123")]])) :=
  ⟨rfl, by
    have h := (run_zmcp_default_requests_json hemoglobinTool "search" ["protein"] rfl).2.2
    rw [h]; rfl⟩

/-! ## C5: the batch loop isolates failures -/

/-- Unrolling the Example 5 fold: the accumulated list is the prefix `acc`
followed by the records of the successful steps, in order. -/
theorem batch_fetch_go (sp : List String → ProcResult) (ids : List String)
    (acc : List StructureRec) :
    ids.foldl
      (fun structures pdb_id =>
        match batch_fetch_step sp pdb_id with
        | .ok r => structures ++ [r]
        | .error _ => structures) acc =
    acc ++ ids.filterMap (fun i => (batch_fetch_step sp i).toOption) := by
  induction ids generalizing acc with
  | nil => simp
  | cons i rest ih =>
    simp only [List.foldl_cons, List.filterMap_cons]
    cases h : batch_fetch_step sp i <;> simp [h, Except.toOption, ih]

/-- The batch loop keeps exactly the successful steps, in order. -/
theorem batch_fetch_eq_filterMap (sp : List String → ProcResult) (ids : List String) :
    batch_fetch sp ids = ids.filterMap (fun i => (batch_fetch_step sp i).toOption) := by
  simpa using batch_fetch_go sp ids []

/-- A successful step's record carries the identifier it was built from. -/
theorem batch_fetch_step_id (sp : List String → ProcResult) (i : String)
    (r : StructureRec) (h : batch_fetch_step sp i = .ok r) : r.id = i := by
  simp only [batch_fetch_step] at h
  repeat' split at h
  all_goals first
    | exact (Except.noConfusion h)
    | (injection h with h; subst h; rfl)

/-- Over identifiers whose step succeeds, the loop records them all, in
the original order. -/
theorem batch_fetch_ok_ids (sp : List String → ProcResult) (l : List String)
    (h : ∀ i ∈ l, ((batch_fetch_step sp i).toOption).isSome = true) :
    (l.filterMap fun i => (batch_fetch_step sp i).toOption).map StructureRec.id = l := by
  induction l with
  | nil => simp
  | cons i rest ih =>
    have hi := h i (by simp)
    have hrest : ∀ j ∈ rest, ((batch_fetch_step sp j).toOption).isSome = true :=
      fun j hj => h j (by simp [hj])
    cases hstep : batch_fetch_step sp i with
    | error e => rw [hstep] at hi; simp [Except.toOption] at hi
    | ok r =>
      have hid := batch_fetch_step_id sp i r hstep
      have hsome : (batch_fetch_step sp i).toOption = some r := by rw [hstep]; rfl
      rw [List.filterMap_cons, hsome, List.map_cons, ih hrest, hid]

/-- C5: in a batch where exactly one identifier fails and the rest
succeed, the accumulated list has length N−1, records every non-failing
identifier, and keeps the original order; the failure does not abort the
remaining iterations. -/
theorem batch_single_failure_isolated (sp : List String → ProcResult)
    (l1 l2 : List String) (bad : String)
    (hbad : ((batch_fetch_step sp bad).toOption).isSome = false)
    (hgood : ∀ i ∈ l1 ++ l2, ((batch_fetch_step sp i).toOption).isSome = true) :
    (batch_fetch sp (l1 ++ bad :: l2)).length = (l1 ++ bad :: l2).length - 1 ∧
    (batch_fetch sp (l1 ++ bad :: l2)).map StructureRec.id = l1 ++ l2 := by
  have hnone : (batch_fetch_step sp bad).toOption = none := by
    cases hb : (batch_fetch_step sp bad).toOption
    · rfl
    · rw [hb] at hbad; simp at hbad
  have h1 := batch_fetch_ok_ids sp l1 (fun i hi => hgood i (by simp [hi]))
  have h2 := batch_fetch_ok_ids sp l2 (fun i hi => hgood i (by simp [hi]))
  have hmap : (batch_fetch sp (l1 ++ bad :: l2)).map StructureRec.id = l1 ++ l2 := by
    rw [batch_fetch_eq_filterMap, List.filterMap_append, List.filterMap_cons, hnone,
      List.map_append, h1, h2]
  refine ⟨?_, hmap⟩
  have hlen := congrArg List.length hmap
  simp only [List.length_map, List.length_append] at hlen
  simp [List.length_append, hlen]

/-- Stdout of the mock batch tool for a successful fetch. -/
def batchStdout : String :=
  "\x7b\"pdbId\":\"4HHB\",\"title\":\"Model structure\"\x7d"

/-- Mock batch tool: fails (exit 1) exactly when the fetched identifier —
the third element of the argument list — is `BAD1`. -/
def batchTool : List String → ProcResult := fun cmd =>
  if cmd.getD 2 "" = "BAD1" then ⟨1, "", "not found"⟩
  else ⟨0, batchStdout, ""⟩

/-- C5 witness: batch `["A1", "BAD1", "C3"]` against the mock tool keeps
two records, for `A1` and `C3`, in order. -/
theorem batch_single_failure_isolated_witness :
    ((batch_fetch_step batchTool "BAD1").toOption).isSome = false ∧
    (∀ i ∈ ["A1"] ++ ["C3"], ((batch_fetch_step batchTool i).toOption).isSome = true) ∧
    (batch_fetch batchTool (["A1"] ++ "BAD1" :: ["C3"])).length =
      (["A1"] ++ "BAD1" :: ["C3"]).length - 1 ∧
    (batch_fetch batchTool (["A1"] ++ "BAD1" :: ["C3"])).map StructureRec.id =
      ["A1"] ++ ["C3"] :=
  ⟨by decide, by decide,
    (batch_single_failure_isolated batchTool ["A1"] ["C3"] "BAD1" (by decide) (by decide)).1,
    (batch_single_failure_isolated batchTool ["A1"] ["C3"] "BAD1" (by decide) (by decide)).2⟩

/-! ## C7: attachment filtering -/

/-- Line 88's test as a pure predicate: `c['itemType'] == 'attachment'`
(false when the subscript would raise). -/
def isAttachment (c : Json) : Bool :=
  match pySubscript c "itemType" with
  | .ok t => t.eqStr "attachment"
  | .error _ => false

/-- Line 92's test as a pure predicate:
`'pdb' in a.get('contentType', '')` (false when it would raise). -/
def hasPdbContentType (a : Json) : Bool :=
  match pyDictGet a "contentType" (.str "") with
  | .ok (.str s) => occursIn "pdb".data s.data
  | _ => false

/-- A child record on which both comprehensions run without raising: a
dict with an `itemType` key, whose `contentType` — when present — is a
string. -/
def childOk (c : Json) : Bool :=
  match c with
  | .obj fields =>
    (lookupLast fields "itemType").isSome &&
    (match lookupLast fields "contentType" with
     | none => true
     | some (.str _) => true
     | some _ => false)
  | _ => false

/-- On a well-formed child, the `itemType` subscript succeeds and decides
line 88's test. -/
theorem childOk_itemType (c : Json) (h : childOk c = true) :
    ∃ t, pySubscript c "itemType" = .ok t ∧ isAttachment c = t.eqStr "attachment" := by
  cases c with
  | null => simp [childOk] at h
  | bool b => simp [childOk] at h
  | num m e => simp [childOk] at h
  | str s => simp [childOk] at h
  | arr xs => simp [childOk] at h
  | obj fields =>
    simp only [childOk] at h
    rw [Bool.and_eq_true] at h
    cases hl : lookupLast fields "itemType" with
    | none => rw [hl] at h; simp at h
    | some t =>
      exact ⟨t, by simp [pySubscript, hl], by simp [isAttachment, pySubscript, hl]⟩

/-- On a well-formed child, the defensive `contentType` read succeeds with
a string, and the `in` test succeeds and decides line 92's test. -/
theorem childOk_contentType (c : Json) (h : childOk c = true) :
    ∃ s, pyDictGet c "contentType" (.str "") = .ok (.str s) ∧
      hasPdbContentType c = occursIn "pdb".data s.data ∧
      pyInOp "pdb" (.str s) = .ok (occursIn "pdb".data s.data) := by
  cases c with
  | null => simp [childOk] at h
  | bool b => simp [childOk] at h
  | num m e => simp [childOk] at h
  | str s => simp [childOk] at h
  | arr xs => simp [childOk] at h
  | obj fields =>
    simp only [childOk] at h
    rw [Bool.and_eq_true] at h
    obtain ⟨-, h2⟩ := h
    cases hl : lookupLast fields "contentType" with
    | none =>
      exact ⟨"", by simp [pyDictGet, hl], by simp [hasPdbContentType, pyDictGet, hl],
        by simp [pyInOp]⟩
    | some v =>
      rw [hl] at h2
      cases v with
      | str s =>
        exact ⟨s, by simp [pyDictGet, hl], by simp [hasPdbContentType, pyDictGet, hl],
          by simp [pyInOp]⟩
      | null => simp at h2
      | bool b => simp at h2
      | num m e => simp at h2
      | arr xs => simp at h2
      | obj fs => simp at h2

/-- Line 88's comprehension computes exactly the attachment subset. -/
theorem attachments_of_filter (children : List Json)
    (h : ∀ c ∈ children, childOk c = true) :
    attachments_of children = .ok (children.filter isAttachment) := by
  induction children with
  | nil => rfl
  | cons c cs ih =>
    obtain ⟨t, ht, hatt⟩ := childOk_itemType c (h c (by simp))
    simp only [attachments_of]
    rw [ht, ih (fun x hx => h x (by simp [hx]))]
    simp [List.filter_cons, hatt]

/-- Line 92's comprehension computes exactly the matching-content subset. -/
theorem pdb_attachments_of_filter (atts : List Json)
    (h : ∀ a ∈ atts, childOk a = true) :
    pdb_attachments_of atts = .ok (atts.filter hasPdbContentType) := by
  induction atts with
  | nil => rfl
  | cons a rest ih =>
    obtain ⟨s, hg, hpdb, hin⟩ := childOk_contentType a (h a (by simp))
    simp only [pdb_attachments_of, hg, hin, ih (fun x hx => h x (by simp [hx]))]
    simp [List.filter_cons, hpdb]

/-- C7: over a children list of well-formed entries (mixing attachments
and non-attachments), line 88 yields exactly the attachment subset, and
line 92 applied to it yields exactly the subset whose content type
contains `"pdb"`. -/
theorem children_filter_exact (children : List Json)
    (h : ∀ c ∈ children, childOk c = true) :
    attachments_of children = .ok (children.filter isAttachment) ∧
    pdb_attachments_of (children.filter isAttachment) =
      .ok ((children.filter isAttachment).filter hasPdbContentType) := by
  refine ⟨attachments_of_filter children h, pdb_attachments_of_filter _ ?_⟩
  intro a ha
  exact h a (List.mem_of_mem_filter ha)

/-- A concrete mixed children list: a PDB attachment, a note, and a PDF
attachment. -/
def mixedChildren : List Json :=
  [ .obj [("itemType", .str "attachment"), ("contentType", .str "chemical/x-pdb"),
      ("key", .str "AT1")],
    .obj [("itemType", .str "note")],
    .obj [("itemType", .str "attachment"), ("contentType", .str "application/pdf"),
      ("key", .str "AT2")] ]

/-- C7 witness: on the concrete mixed list the attachment filter keeps the
two attachments and the content-type filter keeps only the PDB one. -/
theorem children_filter_exact_witness :
    (∀ c ∈ mixedChildren, childOk c = true) ∧
    attachments_of mixedChildren = .ok (mixedChildren.filter isAttachment) ∧
    pdb_attachments_of (mixedChildren.filter isAttachment) =
      .ok ((mixedChildren.filter isAttachment).filter hasPdbContentType) ∧
    (mixedChildren.filter isAttachment).length = 2 ∧
    ((mixedChildren.filter isAttachment).filter hasPdbContentType).length = 1 :=
  ⟨by decide, (children_filter_exact mixedChildren (by decide)).1,
    (children_filter_exact mixedChildren (by decide)).2, rfl, rfl⟩

/-! ## C8: field-access discipline -/

/-- C8 counterexample: line 39 reads `data['pdbId']` by direct subscript,
an assumed-present access — on a decoded object without that key the read
fails with a `KeyError` instead of falling back to a placeholder. -/
theorem example1_read_fails_on_missing_key :
    example1_reads (.jsonVal (.obj [("title", .str "Haemoglobin")])) =
      .error "KeyError: pdbId" := rfl

/-- C8 amended: only the two `.get` reads — `details['item'].get('DOI',
'N/A')` at line 85 and `a.get('contentType', '')` at line 92 — are
optional lookups with explicit defaults, never failing on a dict missing
the key; the remaining field reads (lines 39–44 among others) are direct
subscripts that fail when the named key is absent. -/
theorem defensive_reads_are_only_gets (fields : List (String × Json))
    (hd : lookupLast fields "DOI" = none)
    (hc : lookupLast fields "contentType" = none)
    (hp : lookupLast fields "pdbId" = none) :
    pyDictGet (.obj fields) "DOI" (.str "N/A") = .ok (.str "N/A") ∧
    pyDictGet (.obj fields) "contentType" (.str "") = .ok (.str "") ∧
    (∀ k d, ∃ v, pyDictGet (.obj fields) k d = .ok v) ∧
    example4_doi_read (.jsonVal (.obj [("item", .obj fields)])) = .ok (.str "N/A") ∧
    pySubscript (.obj fields) "pdbId" = .error "KeyError: pdbId" := by
  refine ⟨by simp [pyDictGet, hd], by simp [pyDictGet, hc], ?_, ?_, by simp [pySubscript, hp]⟩
  · intro k d
    cases hl : lookupLast fields k with
    | none => exact ⟨d, by simp [pyDictGet, hl]⟩
    | some v => exact ⟨v, by simp [pyDictGet, hl]⟩
  · simp [example4_doi_read, RunValue.subscript, pySubscript, lookupLast, pyDictGet, hd]

/-- C8 amended witness: the empty dict has none of the keys; the `.get`
reads return their placeholders while the subscript read fails. -/
theorem defensive_reads_are_only_gets_witness :
    lookupLast [] "DOI" = none ∧
    pyDictGet (.obj []) "DOI" (.str "N/A") = .ok (.str "N/A") ∧
    pySubscript (.obj []) "pdbId" = .error "KeyError: pdbId" :=
  ⟨rfl, (defensive_reads_are_only_gets [] rfl rfl rfl).1,
    (defensive_reads_are_only_gets [] rfl rfl rfl).2.2.2.2⟩

/-! ## C9: the search summary -/

/-- Six well-formed search items. -/
def sixItems : List Json :=
  [ .obj [("title", .str "T1"), ("key", .str "K1")],
    .obj [("title", .str "T2"), ("key", .str "K2")],
    .obj [("title", .str "T3"), ("key", .str "K3")],
    .obj [("title", .str "T4"), ("key", .str "K4")],
    .obj [("title", .str "T5"), ("key", .str "K5")],
    .obj [("title", .str "T6"), ("key", .str "K6")] ]

/-- C9 counterexample: with six items the summary loop (which enumerates
`items[:5]`) prints exactly five lines; the sixth item is not summarized —
its key `K6` appears in no printed line. -/
theorem search_summary_caps_at_five :
    sixItems.length = 6 ∧
    search_summary sixItems = .ok
      ["  1. T1 (K1)", "  2. T2 (K2)", "  3. T3 (K3)", "  4. T4 (K4)", "  5. T5 (K5)"] ∧
    ((search_summary sixItems).toOption.map fun ls =>
      ls.any fun l => occursIn "K6".data l.data) = some false :=
  ⟨rfl, rfl, rfl⟩

/-- Does this subscript read succeed? -/
def subscriptOk (j : Json) (k : String) : Bool :=
  match pySubscript j k with
  | .ok _ => true
  | .error _ => false

/-- A successful `subscriptOk` test yields the read value. -/
theorem subscriptOk_exists (j : Json) (key : String)
    (h : subscriptOk j key = true) : ∃ v, pySubscript j key = .ok v := by
  unfold subscriptOk at h
  cases hs : pySubscript j key with
  | error e => rw [hs] at h; simp at h
  | ok v => exact ⟨v, rfl⟩

/-- The summary loop over well-formed items: one line per item, in order,
line `n` built from item `n`'s title and key and its 1-based position. -/
theorem summary_lines_spec (l : List Json) (i : Nat)
    (h : ∀ it ∈ l, subscriptOk it "title" = true ∧ subscriptOk it "key" = true) :
    ∃ lines, summary_lines i l = .ok lines ∧ lines.length = l.length ∧
      ∀ n item, l.get? n = some item →
        ∃ t k, pySubscript item "title" = .ok t ∧ pySubscript item "key" = .ok k ∧
          lines.get? n = some ("  " ++ toString (i + n) ++ ". " ++ pyStr t ++
            " (" ++ pyStr k ++ ")") := by
  induction l generalizing i with
  | nil =>
    refine ⟨[], rfl, rfl, ?_⟩
    intro n item hn
    simp at hn
  | cons item rest ih =>
    obtain ⟨hto, hko⟩ := h item (by simp)
    obtain ⟨t, ht⟩ := subscriptOk_exists item "title" hto
    obtain ⟨k, hk⟩ := subscriptOk_exists item "key" hko
    obtain ⟨ls, hls, hlen, hidx⟩ := ih (i + 1) (fun x hx => h x (by simp [hx]))
    refine ⟨("  " ++ toString i ++ ". " ++ pyStr t ++ " (" ++ pyStr k ++ ")") :: ls,
      ?_, by simp [hlen], ?_⟩
    · simp only [summary_lines, ht, hk, hls]
    · intro n it hn
      cases n with
      | zero =>
        simp only [List.get?] at hn
        cases hn
        exact ⟨t, k, ht, hk, by simp⟩
      | succ m =>
        simp only [List.get?] at hn
        obtain ⟨t', k', ht', hk', hline⟩ := hidx m it hn
        refine ⟨t', k', ht', hk', ?_⟩
        simpa [show i + 1 + m = i + (m + 1) from by omega] using hline

/-- C9 amended: every item among the first five of the returned sequence
is summarized by its title and key (in order, enumerated from 1); items
beyond the fifth are not summarized. -/
theorem search_summary_first_five (items : List Json)
    (h : ∀ it ∈ items.take 5,
      subscriptOk it "title" = true ∧ subscriptOk it "key" = true) :
    ∃ lines, search_summary items = .ok lines ∧
      lines.length = min 5 items.length ∧
      ∀ n item, (items.take 5).get? n = some item →
        ∃ t k, pySubscript item "title" = .ok t ∧ pySubscript item "key" = .ok k ∧
          lines.get? n = some ("  " ++ toString (n + 1) ++ ". " ++ pyStr t ++
            " (" ++ pyStr k ++ ")") := by
  obtain ⟨lines, hls, hlen, hidx⟩ := summary_lines_spec (items.take 5) 1 h
  refine ⟨lines, hls, by simpa using hlen, ?_⟩
  intro n item hn
  obtain ⟨t, k, ht, hk, hline⟩ := hidx n item hn
  exact ⟨t, k, ht, hk, by simpa [show 1 + n = n + 1 from by omega] using hline⟩

/-- C9 amended witness: two well-formed items are both summarized, with
their titles and keys, enumerated from 1. -/
theorem search_summary_first_five_witness :
    (∀ it ∈ ([Json.obj [("title", .str "Alpha"), ("key", .str "KA")],
        Json.obj [("title", .str "Beta"), ("key", .str "KB")]] : List Json).take 5,
      subscriptOk it "title" = true ∧ subscriptOk it "key" = true) ∧
    ∃ lines, search_summary
        [Json.obj [("title", .str "Alpha"), ("key", .str "KA")],
         Json.obj [("title", .str "Beta"), ("key", .str "KB")]] = .ok lines ∧
      lines.length = min 5
        ([Json.obj [("title", .str "Alpha"), ("key", .str "KA")],
          Json.obj [("title", .str "Beta"), ("key", .str "KB")]] : List Json).length ∧
      ∀ n item, (([Json.obj [("title", .str "Alpha"), ("key", .str "KA")],
          Json.obj [("title", .str "Beta"), ("key", .str "KB")]] : List Json).take 5).get? n =
            some item →
        ∃ t k, pySubscript item "title" = .ok t ∧ pySubscript item "key" = .ok k ∧
          lines.get? n = some ("  " ++ toString (n + 1) ++ ". " ++ pyStr t ++
            " (" ++ pyStr k ++ ")") :=
  ⟨by decide, search_summary_first_five _ (by decide)⟩
